import Mathlib

/-!
Shallow embedding of the seat-inventory and booking core of the
`lumo-backend` cinema ticketing service.

The definitions below are translated from the Python source:
  * `movies/models.py`  — `Showtime`, `SeatLayout`, `Seat`, `SeatReservation`,
    `Showtime.reserve_seats`, `Showtime.get_available_seats_map`,
    `SeatReservation.is_expired / confirm_reservation / cancel_reservation`;
  * `bookings/models.py` — `Booking.confirm_booking`, `Booking.cancel_booking`,
    `Customer.add_loyalty_points`;
  * `bookings/serializers.py` — `BookingCreateSerializer.validate / create`.

Times are modelled as integers (seconds); monetary amounts (`Decimal` in the
source) as rationals; database rows as lists.  The database uniqueness
constraint `unique_together = ['showtime', 'seat']` on `SeatReservation` is
modelled as an integrity-error branch of row insertion, exactly as the
database would raise it on `SeatReservation.objects.create`.  Likewise the
non-negativity check the schema carries for the `PositiveIntegerField`
column `Showtime.available_seats` is modelled where it fires: a `save()`
that would store a negative counter raises, and the surrounding
`transaction.atomic` of the payment view rolls the request back
(see `payBooking`).
-/

namespace Lumo

/-- Seat types, from `Seat.SEAT_TYPE_CHOICES` in `movies/models.py`. -/
inductive SeatType where
  | standard
  | premium
  | accessible
  | couple
  | blocked
deriving DecidableEq, Repr

/-- Reservation states, from `SeatReservation.STATUS_CHOICES`. -/
inductive RStatus where
  | reserved
  | confirmed
  | cancelled
  | expired
deriving DecidableEq, Repr

/-- Booking states, from `Booking.BOOKING_STATUS_CHOICES`. -/
inductive BStatus where
  | pending
  | confirmed
  | cancelled
  | refunded
deriving DecidableEq, Repr

/-- A physical seat of a `SeatLayout` (`movies/models.py`, class `Seat`). -/
structure Seat where
  row : String
  number : Nat
  seatType : SeatType
  priceMultiplier : ℚ
  isActive : Bool
deriving DecidableEq, Repr

/-- A seat identifier as sent on the wire (`"A12"` = row `"A"`, number `12`).
The Python code parses `seat_id[0]` as the row and `int(seat_id[1:])` as the
number; we keep the parsed form. -/
structure SeatId where
  row : String
  number : Nat
deriving DecidableEq, Repr

/-- `Seat.seat_identifier` as a parsed pair. -/
def Seat.key (s : Seat) : SeatId := ⟨s.row, s.number⟩

/-- Seat layout (`movies/models.py`, class `SeatLayout`): the row
configuration (row label ↦ seat count) together with the `Seat` rows that
belong to the layout. -/
structure SeatLayout where
  rowConfiguration : List (String × Nat)
  seats : List Seat
deriving DecidableEq, Repr

/-- A `SeatReservation` row (`movies/models.py`).  `rid` models the primary
key. -/
structure Reservation where
  rid : Nat
  seat : Seat
  bookingId : Option Nat
  status : RStatus
  confirmedAt : Option Int
  expiresAt : Int
deriving DecidableEq, Repr

/-- A showtime (`movies/models.py`, class `Showtime`).  `availableSeats` is
an integer because Python integer arithmetic underlies the counter updates. -/
structure Showtime where
  seatLayout : Option SeatLayout
  totalSeats : Nat
  availableSeats : Int
  ticketPrice : ℚ
  isActive : Bool
  datetime : Int
deriving DecidableEq, Repr

/-- `Showtime.is_available` property. -/
def Showtime.isAvailable (st : Showtime) (now : Int) : Bool :=
  st.isActive && decide (st.availableSeats > 0) && decide (st.datetime > now)

/-- `SeatReservation.is_expired`: `status == 'reserved' and now > expires_at`. -/
def Reservation.isExpired (r : Reservation) (now : Int) : Bool :=
  decide (r.status = RStatus.reserved) && decide (now > r.expiresAt)

/-- A *live* hold in the spec's sense: `reserved` and not expired, or
`confirmed`. -/
def Reservation.isLive (r : Reservation) (now : Int) : Bool :=
  (decide (r.status = RStatus.reserved) && decide (now ≤ r.expiresAt))
    || decide (r.status = RStatus.confirmed)

/-- The status filter `status__in=['reserved', 'confirmed']` used both by
`Showtime.reserve_seats` and `Showtime.get_available_seats_map`.  Note that
it consults the stored status only — it never looks at `expires_at`. -/
def Reservation.hasBlockingStatus (r : Reservation) : Bool :=
  decide (r.status = RStatus.reserved) || decide (r.status = RStatus.confirmed)

/-- `self.seat_layout.seats.filter(row=row, number=number).first()`. -/
def findSeat (seats : List Seat) (row : String) (number : Nat) : Option Seat :=
  seats.find? (fun s => decide (s.row = row) && decide (s.number = number))

/-- Errors that `Showtime.reserve_seats` (and the surrounding view) can
surface.  `noSeatMap` is raised by the view before calling the model method;
`seatDoesNotExist` and `seatAlreadyReserved` are the two `ValueError`s of the
method; `uniqueViolation` is the database `IntegrityError` raised by
`SeatReservation.objects.create` when a row for the same `(showtime, seat)`
already exists (`unique_together = ['showtime', 'seat']`). -/
inductive ReserveError where
  | noSeatMap
  | seatDoesNotExist (sid : SeatId)
  | seatAlreadyReserved (sid : SeatId)
  | uniqueViolation (sid : SeatId)
deriving DecidableEq, Repr

/-- One iteration step of the loop body of `Showtime.reserve_seats`,
lifted to a recursion over the requested seat ids.  The reservation table is
threaded through because each `SeatReservation.objects.create` persists
immediately; the surrounding view (`SeatReservationCreateView.create` in
`movies/views.py`) runs *without* `transaction.atomic`, so rows created
before a failing seat stay in the database. -/
def reserveGo (seats : List Seat) (expiresAt : Int) (table : List Reservation) :
    List SeatId → List Reservation × Except ReserveError (List Reservation)
  | [] => (table, Except.ok [])
  | sid :: rest =>
    match findSeat seats sid.row sid.number with
    | none => (table, Except.error (ReserveError.seatDoesNotExist sid))
    | some seat =>
      if (table.filter (fun r =>
            decide (r.seat = seat) && r.hasBlockingStatus)).isEmpty = false then
        (table, Except.error (ReserveError.seatAlreadyReserved sid))
      else if table.any (fun r => decide (r.seat = seat)) then
        (table, Except.error (ReserveError.uniqueViolation sid))
      else
        let r : Reservation :=
          { rid := table.length, seat := seat, bookingId := none,
            status := RStatus.reserved, confirmedAt := none,
            expiresAt := expiresAt }
        match reserveGo seats expiresAt (table ++ [r]) rest with
        | (table', Except.ok rs) => (table', Except.ok (r :: rs))
        | (table', Except.error e) => (table', Except.error e)

/-- `Showtime.reserve_seats(seat_ids, customer, expiry_minutes)` together
with the view-level seat-layout check.  Returns the reservation table after
the call and either the created reservations or the error raised. -/
def reserveSeats (st : Showtime) (table : List Reservation) (seatIds : List SeatId)
    (now expiryMinutes : Int) :
    List Reservation × Except ReserveError (List Reservation) :=
  match st.seatLayout with
  | none => (table, Except.error ReserveError.noSeatMap)
  | some layout => reserveGo layout.seats (now + expiryMinutes * 60) table seatIds

/-- `SeatReservation.confirm_reservation` applied to the row with primary key
`rid`. -/
def confirmReservationRow (table : List Reservation) (rid : Nat) (now : Int) :
    List Reservation :=
  table.map (fun r =>
    if r.rid = rid then
      { r with status := RStatus.confirmed, confirmedAt := some now }
    else r)

/-- `SeatReservation.cancel_reservation` applied to the row with primary key
`rid`. -/
def cancelReservationRow (table : List Reservation) (rid : Nat) :
    List Reservation :=
  table.map (fun r =>
    if r.rid = rid then { r with status := RStatus.cancelled } else r)

/-- One entry of the map produced by `Showtime.get_available_seats_map`. -/
structure SeatMapEntry where
  row : String
  number : Nat
  seatType : SeatType
  priceMultiplier : ℚ
  isAvailable : Bool
  isBlocked : Bool
deriving DecidableEq, Repr

/-- Membership of a seat identifier in the `reserved_seats` set computed by
`get_available_seats_map`: identifiers of reservations with
`status__in=['reserved', 'confirmed']` (again no `expires_at` check). -/
def seatInReservedSet (table : List Reservation) (row : String) (number : Nat) :
    Bool :=
  table.any (fun r =>
    decide (r.seat.row = row) && decide (r.seat.number = number)
      && r.hasBlockingStatus)

/-- The per-seat body of `get_available_seats_map`: the seat is looked up in
the layout's `Seat` rows; a missing seat is rendered as a blocked
placeholder. -/
def seatMapEntry (layout : SeatLayout) (table : List Reservation)
    (row : String) (number : Nat) : SeatMapEntry :=
  match findSeat layout.seats row number with
  | some seat =>
      { row := row, number := number, seatType := seat.seatType,
        priceMultiplier := seat.priceMultiplier,
        isAvailable := !seatInReservedSet table row number && seat.isActive,
        isBlocked := !seat.isActive || decide (seat.seatType = SeatType.blocked) }
  | none =>
      { row := row, number := number, seatType := SeatType.blocked,
        priceMultiplier := 1,
        isAvailable := false, isBlocked := true }

/-- `Showtime.get_available_seats_map`: for each configured row, the entries
for seat numbers `1 .. count` (the ids generated by
`SeatLayout.get_seat_map`).  Returns `none` when the showtime has no seat
layout.  Note the function takes no current time: availability is computed
from stored statuses only. -/
def getAvailableSeatsMap (st : Showtime) (table : List Reservation) :
    Option (List (String × List SeatMapEntry)) :=
  match st.seatLayout with
  | none => none
  | some layout =>
      some (layout.rowConfiguration.map (fun rc =>
        (rc.1, (List.range rc.2).map (fun i =>
          seatMapEntry layout table rc.1 (i + 1)))))

/-- Whether the seat map reports seat `(row, number)` as available. -/
def seatShownAvailable (st : Showtime) (table : List Reservation)
    (row : String) (number : Nat) : Bool :=
  match getAvailableSeatsMap st table with
  | none => false
  | some rows => rows.any (fun rc =>
      rc.2.any (fun e =>
        decide (e.row = row) && decide (e.number = number) && e.isAvailable))

/-! ### Customers and bookings (`accounts/models.py`, `bookings/models.py`) -/

/-- The slice of `Customer` the booking core touches: the loyalty-point
balance. -/
structure Customer where
  loyaltyPoints : Int
deriving DecidableEq, Repr

/-- `Customer.add_loyalty_points`. -/
def Customer.addLoyaltyPoints (c : Customer) (points : Int) : Customer :=
  { c with loyaltyPoints := c.loyaltyPoints + points }

/-- A `Booking` row (`bookings/models.py`). -/
structure Booking where
  status : BStatus
  numberOfSeats : Nat
  totalAmount : ℚ
  basePricePerSeat : ℚ
  discountAmount : ℚ
  loyaltyPointsUsed : Nat
  seatNumbers : List SeatId
  confirmedAt : Option Int
  cancelledAt : Option Int
deriving DecidableEq, Repr

/-- Python `int(...)` on a non-negative `Decimal` truncates toward zero. -/
def pyInt (q : ℚ) : Int := Int.tdiv q.num (q.den : Int)

/-- `Booking.confirm_booking`: guarded by `status == 'pending'`; decrements
`showtime.available_seats` by `number_of_seats` (unconditionally — there is
no seat-layout branch), awards `int(total_amount)` loyalty points, marks the
booking confirmed.  Outside the guard the call changes nothing.  This is the
in-memory mutation; whether the decremented counter can be *saved* is
decided by the database's `PositiveIntegerField` check at the transaction
boundary, modelled in `payBooking`. -/
def confirmBooking (b : Booking) (st : Showtime) (c : Customer) (now : Int) :
    Booking × Showtime × Customer :=
  if b.status = BStatus.pending then
    ({ b with status := BStatus.confirmed, confirmedAt := some now },
     { st with availableSeats := st.availableSeats - b.numberOfSeats },
     c.addLoyaltyPoints (pyInt b.totalAmount))
  else
    (b, st, c)

/-- `Booking.can_cancel`: confirmed and more than two hours before the
showtime. -/
def canCancel (b : Booking) (st : Showtime) (now : Int) : Bool :=
  decide (b.status = BStatus.confirmed) && decide (st.datetime - now > 2 * 3600)

/-- `Booking.cancel_booking`: when `can_cancel`, marks the booking cancelled,
restores `available_seats`, and returns `true`; otherwise returns `false`
and changes nothing. -/
def cancelBooking (b : Booking) (st : Showtime) (now : Int) :
    Booking × Showtime × Bool :=
  if canCancel b st now then
    ({ b with status := BStatus.cancelled, cancelledAt := some now },
     { st with availableSeats := st.availableSeats + b.numberOfSeats },
     true)
  else
    (b, st, false)

/-! ### Booking creation (`bookings/serializers.py`, `BookingCreateSerializer`) -/

/-- Errors surfaced by booking creation (serializer `ValidationError`s).  The
view wraps creation in `transaction.atomic()`, so an error leaves no state
change. -/
inductive CreateError where
  | tooManySeats
  | showtimeNotAvailable
  | insufficientSeats
  | pastShowtime
  | invalidReservations
  | reservationExpired (sid : SeatId)
  | insufficientPoints
deriving DecidableEq, Repr

/-- `Showtime.calculate_seat_price`. -/
def calculateSeatPrice (st : Showtime) (s : Seat) : ℚ :=
  st.ticketPrice * s.priceMultiplier

/-- The loyalty-point discount of `BookingCreateSerializer.create`:
`min(loyalty_points_used * Decimal('0.10'), total * Decimal('0.50'))`. -/
def pointsDiscount (points : Nat) (total : ℚ) : ℚ :=
  min ((points : ℚ) * (1 / 10)) (total * (1 / 2))

/-- The whole system state touched by a booking request: the showtime, its
reservation table, the booking list, and the requesting customer. -/
structure SysState where
  showtime : Showtime
  table : List Reservation
  bookings : List Booking
  customer : Customer
deriving DecidableEq, Repr

/-- The reservation filter of `BookingCreateSerializer.create`:
`SeatReservation.objects.filter(id__in=ids, showtime=showtime,
status='reserved')`. -/
def selectedReservations (table : List Reservation) (resIds : List Nat) :
    List Reservation :=
  table.filter (fun r =>
    decide (r.rid ∈ resIds) && decide (r.status = RStatus.reserved))

/-- The pre-discount amount of `BookingCreateSerializer.create`: with held
seats, the sum of per-seat prices; otherwise `ticket_price * number_of_seats`. -/
def bookingSubtotal (st : Showtime) (table : List Reservation)
    (resIds : List Nat) (nSeats : Nat) : ℚ :=
  let sel := selectedReservations table resIds
  if sel.isEmpty then
    st.ticketPrice * nSeats
  else
    (sel.map (fun r => calculateSeatPrice st r.seat)).sum

/-- `BookingCreateSerializer` end to end: `validate_number_of_seats`,
`validate`, then `create` — including the immediate
`confirm_reservation()` loop on the referenced holds and the loyalty-point
deduction.  `nSeats` is the client-supplied `number_of_seats`; it is
overridden by the number of referenced holds when `seat_reservation_ids` is
non-empty.  On success the new booking is appended to `bookings`. -/
def createBooking (s : SysState) (nSeats points : Nat) (resIds : List Nat)
    (now : Int) : Except CreateError SysState :=
  -- validate_number_of_seats
  if nSeats > 10 then Except.error CreateError.tooManySeats
  -- validate: showtime availability
  else if s.showtime.isAvailable now = false then
    Except.error CreateError.showtimeNotAvailable
  else if s.showtime.availableSeats < nSeats then
    Except.error CreateError.insufficientSeats
  else if s.showtime.datetime ≤ now then
    Except.error CreateError.pastShowtime
  else
    -- create: resolve the referenced holds
    let sel := selectedReservations s.table resIds
    if resIds.isEmpty = false ∧ sel.length ≠ resIds.length then
      Except.error CreateError.invalidReservations
    else
      match sel.find? (fun r => r.isExpired now) with
      | some r => Except.error (CreateError.reservationExpired r.seat.key)
      | none =>
        let n := if sel.isEmpty then nSeats else sel.length
        let total := bookingSubtotal s.showtime s.table resIds nSeats
        let basePrice :=
          if sel.isEmpty then s.showtime.ticketPrice else total / n
        let seatNumbers :=
          if sel.isEmpty then [] else sel.map (fun r => r.seat.key)
        let discount := pointsDiscount points total
        if (points : Int) > s.customer.loyaltyPoints then
          Except.error CreateError.insufficientPoints
        else
          let booking : Booking :=
            { status := BStatus.pending, numberOfSeats := n,
              totalAmount := total - discount, basePricePerSeat := basePrice,
              discountAmount := discount, loyaltyPointsUsed := points,
              seatNumbers := seatNumbers, confirmedAt := none,
              cancelledAt := none }
          let bid := s.bookings.length
          let table' := s.table.map (fun r =>
            if decide (r.rid ∈ resIds) && decide (r.status = RStatus.reserved) then
              { r with bookingId := some bid, status := RStatus.confirmed,
                       confirmedAt := some now }
            else r)
          Except.ok
            { showtime := s.showtime, table := table',
              bookings := s.bookings ++ [booking],
              customer := { loyaltyPoints := s.customer.loyaltyPoints - points } }

/-! ### The request-level state machine

`PaymentCreateView.create` (`bookings/views.py`) creates a payment for a
pending booking and immediately calls `Payment.mark_completed`, which calls
`Booking.confirm_booking`.  `cancel_booking` is invoked by the cancellation
endpoint.  `SeatReservationCreateView` invokes `Showtime.reserve_seats`
without a transaction, keeping whatever rows were created before an error. -/

/-- Payment completion for booking `bid`: `PaymentCreateSerializer` rejects
non-pending bookings; `mark_completed` then confirms the booking.
`available_seats` is declared `PositiveIntegerField`, so the schema carries
a non-negativity check: when `confirm_booking`'s decrement would store a
negative value, `showtime.save()` raises an `IntegrityError`, the exception
propagates out of `mark_completed`, and `PaymentCreateView.create`'s
`transaction.atomic` rolls the whole request back — no part of the
confirmation persists. -/
def payBooking (s : SysState) (bid : Nat) (now : Int) : SysState :=
  match s.bookings[bid]? with
  | none => s
  | some b =>
    if b.status = BStatus.pending then
      let r := confirmBooking b s.showtime s.customer now
      if r.2.1.availableSeats < 0 then s
      else
        { showtime := r.2.1, table := s.table,
          bookings := s.bookings.set bid r.1, customer := r.2.2 }
    else s

/-- The cancellation endpoint for booking `bid`: calls
`Booking.cancel_booking`, which changes nothing when `can_cancel` is
false. -/
def cancelBookingSys (s : SysState) (bid : Nat) (now : Int) : SysState :=
  match s.bookings[bid]? with
  | none => s
  | some b =>
    let r := cancelBooking b s.showtime now
    { showtime := r.2.1, table := s.table,
      bookings := s.bookings.set bid r.1, customer := s.customer }

/-- The operations a client (or the payment callback) can run against one
showtime. -/
inductive Op where
  | reserve (seatIds : List SeatId) (ttlMinutes : Int) (now : Int)
  | create (nSeats points : Nat) (resIds : List Nat) (now : Int)
  | pay (bid : Nat) (now : Int)
  | cancel (bid : Nat) (now : Int)
  | confirmRes (rid : Nat) (now : Int)
  | cancelRes (rid : Nat)
deriving DecidableEq, Repr

/-- One request against the system.  A failed `createBooking` rolls back in
full (the view wraps it in `transaction.atomic`); a failed `reserveSeats`
keeps the rows created before the failure (its view has no transaction). -/
def stepOp (s : SysState) : Op → SysState
  | Op.reserve ids ttl now =>
      { s with table := (reserveSeats s.showtime s.table ids now ttl).1 }
  | Op.create n pts resIds now =>
      match createBooking s n pts resIds now with
      | Except.ok s' => s'
      | Except.error _ => s
  | Op.pay bid now => payBooking s bid now
  | Op.cancel bid now => cancelBookingSys s bid now
  | Op.confirmRes rid now => { s with table := confirmReservationRow s.table rid now }
  | Op.cancelRes rid => { s with table := cancelReservationRow s.table rid }

/-- Run a sequence of requests. -/
def runSys (s : SysState) (ops : List Op) : SysState := ops.foldl stepOp s

/-! ### Derived observations used by the claims -/

/-- Number of live holds on seat `(row, number)` at time `now`. -/
def countLiveFor (t : List Reservation) (row : String) (number : Nat)
    (now : Int) : Nat :=
  (t.filter (fun r =>
    decide (r.seat.row = row) && decide (r.seat.number = number)
      && r.isLive now)).length

/-- The seats of the layout a showtime carries (empty when it has none). -/
def layoutSeats (st : Showtime) : List Seat :=
  match st.seatLayout with
  | none => []
  | some layout => layout.seats

/-- Well-formedness of a reservation table relative to a seat list: seat
keys are pairwise distinct, and every row's seat is the seat the lookup
returns for its key. -/
def seatsWF (seats : List Seat) (t : List Reservation) : Prop :=
  (t.map (fun r => (r.seat.row, r.seat.number))).Nodup ∧
    ∀ r ∈ t, findSeat seats r.seat.row r.seat.number = some r.seat

/-- Table well-formedness relative to a showtime's layout.  Holds for every
table reachable from the empty one. -/
def tableWF (st : Showtime) (t : List Reservation) : Prop :=
  seatsWF (layoutSeats st) t


/-- Seat-count contribution of a booking in status `confirmed`. -/
def confSeats (b : Booking) : Int :=
  if b.status = BStatus.confirmed then (b.numberOfSeats : Int) else 0

/-- Seat-count contribution of a booking that has ever been confirmed: in
this machine exactly the bookings now in status `confirmed` or `cancelled`
(cancellation is only reachable from `confirmed`). -/
def everConfSeats (b : Booking) : Int :=
  if b.status = BStatus.confirmed ∨ b.status = BStatus.cancelled then
    (b.numberOfSeats : Int)
  else 0

/-- Seat-count contribution of a booking in status `cancelled`. -/
def cancSeats (b : Booking) : Int :=
  if b.status = BStatus.cancelled then (b.numberOfSeats : Int) else 0

/-- Sum of confirmed bookings' seat counts. -/
def confirmedSeatSum (bs : List Booking) : Int := (bs.map confSeats).sum

/-- Sum of ever-confirmed bookings' seat counts. -/
def everConfirmedSeatSum (bs : List Booking) : Int := (bs.map everConfSeats).sum

/-- Sum of cancelled bookings' seat counts. -/
def cancelledSeatSum (bs : List Booking) : Int := (bs.map cancSeats).sum

/-- The availability accounting invariant: the free-seat counter plus the
seats held by currently-confirmed bookings equals the capacity. -/
def availInv (s : SysState) : Prop :=
  s.showtime.availableSeats + confirmedSeatSum s.bookings
    = (s.showtime.totalSeats : Int)

/-- Equality of `Except` values is decidable componentwise. -/
instance {ε α : Type} [DecidableEq ε] [DecidableEq α] : DecidableEq (Except ε α) := fun
  | Except.ok a, Except.ok b =>
    match decEq a b with
    | isTrue h => isTrue (by rw [h])
    | isFalse h => isFalse (fun hh => by cases hh; exact h rfl)
  | Except.ok _, Except.error _ => isFalse (fun h => by cases h)
  | Except.error _, Except.ok _ => isFalse (fun h => by cases h)
  | Except.error e, Except.error f =>
    match decEq e f with
    | isTrue h => isTrue (by rw [h])
    | isFalse h => isFalse (fun hh => by cases hh; exact h rfl)

/-! ### Concrete fixtures (used by counterexamples and witnesses) -/

/-- Seat A1: standard, multiplier 1, active. -/
def seatA1 : Seat := ⟨"A", 1, SeatType.standard, 1, true⟩

/-- Seat A2: standard, multiplier 1, active. -/
def seatA2 : Seat := ⟨"A", 2, SeatType.standard, 1, true⟩

/-- A layout with a single row `A` of two seats. -/
def layoutA : SeatLayout := ⟨[("A", 2)], [seatA1, seatA2]⟩

/-- A seat-mapped showtime: layout `layoutA`, 100 seats, $10 base price,
active, starting at time 1000000. -/
def showtimeMapped : Showtime := ⟨some layoutA, 100, 100, 10, true, 1000000⟩

/-- A showtime without a seat layout. -/
def showtimePlain : Showtime := ⟨none, 100, 100, 10, true, 1000000⟩

/-- A live hold on seat A1 expiring at time 1000. -/
def resA1live : Reservation := ⟨0, seatA1, none, RStatus.reserved, none, 1000⟩

/-- A hold on seat A1 with stored status `reserved` that expired at time 10. -/
def resA1expired : Reservation := ⟨0, seatA1, none, RStatus.reserved, none, 10⟩

/-- A cancelled reservation row for seat A1. -/
def resA1cancelled : Reservation := ⟨0, seatA1, none, RStatus.cancelled, none, 10⟩

/-- A pending two-seat booking for $20. -/
def bookingPending2 : Booking := ⟨BStatus.pending, 2, 20, 10, 0, 0, [], none, none⟩

/-- Scenario C of the spec: customer with 50 loyalty points, plain showtime
at $10 a seat. -/
def stateC10 : SysState := ⟨showtimePlain, [], [], ⟨50⟩⟩

/-- The booking the code actually creates in scenario C: the 50 points
convert to a $5 discount, so the total is $45. -/
def bookingC10 : Booking := ⟨BStatus.pending, 5, 45, 10, 5, 50, [], none, none⟩

/-- A system with one live hold on seat A1 of the mapped showtime. -/
def sysC3 : SysState := ⟨showtimeMapped, [resA1live], [], ⟨0⟩⟩

/-- The A1 hold as `create_booking` leaves it: confirmed and attached to
booking 0 at time 0. -/
def resA1confirmed0 : Reservation := ⟨0, seatA1, some 0, RStatus.confirmed, some 0, 1000⟩

/-- The booking `create_booking` makes for the single held seat A1. -/
def bookingC3 : Booking := ⟨BStatus.pending, 1, 10, 10, 0, 0, [⟨"A", 1⟩], none, none⟩

/-- The mapped showtime with an empty reservation table. -/
def sysEmptyMapped : SysState := ⟨showtimeMapped, [], [], ⟨0⟩⟩

/-- A one-seat showtime with one seat still free. -/
def sysTight : SysState := ⟨⟨none, 1, 1, 10, true, 1000000⟩, [], [], ⟨0⟩⟩

/-- Two one-seat bookings are both created while the seat is still free,
then both are paid: the second confirmation would drive the counter
negative, so its save violates the `PositiveIntegerField` check and the
payment transaction rolls back. -/
def opsOversell : List Op :=
  [Op.create 1 0 [] 0, Op.create 1 0 [] 0, Op.pay 0 0, Op.pay 1 0]

/-! ### Helper lemmas about `reserveGo` -/

theorem findSeat_key (seats : List Seat) (row : String) (number : Nat) (s : Seat)
    (h : findSeat seats row number = some s) : s.row = row ∧ s.number = number := by
  have h' := List.find?_some h
  simpa [Bool.and_eq_true, decide_eq_true_eq] using h'

theorem isLive_hasBlockingStatus (r : Reservation) (now : Int)
    (h : r.isLive now = true) : r.hasBlockingStatus = true := by
  simp only [Reservation.isLive, Bool.or_eq_true, Bool.and_eq_true,
    decide_eq_true_eq] at h
  rcases h with ⟨h1, -⟩ | h2 <;>
    simp [Reservation.hasBlockingStatus, *]

theorem length_filter_and_le {α : Type} (p q : α → Bool) (l : List α) :
    (l.filter (fun a => p a && q a)).length ≤ (l.filter p).length := by
  induction l with
  | nil => simp
  | cons a l ih =>
    by_cases hp : p a = true
    · by_cases hq : q a = true
      · simp only [List.filter_cons, hp, hq, Bool.and_self, if_pos]
        simpa using ih
      · simp [List.filter_cons, hp, hq]
        exact ih.trans (Nat.le_succ _)
    · simp only [List.filter_cons, hp, Bool.false_and]
      simpa using ih

/-- On success `reserveGo` appends exactly one `reserved` hold per requested
seat, in request order, all with the common expiry. -/
theorem reserveGo_ok (seats : List Seat) (exp : Int) :
    ∀ (ids : List SeatId) (table table' rs : List Reservation),
      reserveGo seats exp table ids = (table', Except.ok rs) →
      table' = table ++ rs ∧ rs.map (fun r => r.seat.key) = ids ∧
        ∀ r ∈ rs, r.status = RStatus.reserved ∧ r.expiresAt = exp := by
  intro ids
  induction ids with
  | nil =>
    intro table table' rs h
    have h' : (table, (Except.ok [] : Except ReserveError (List Reservation)))
        = (table', Except.ok rs) := h
    simp only [Prod.mk.injEq, Except.ok.injEq] at h'
    obtain ⟨rfl, rfl⟩ := h'
    simp
  | cons sid rest ih =>
    intro table table' rs h
    simp only [reserveGo] at h
    split at h
    · simp at h
    · split at h
      · simp at h
      · split at h
        · simp at h
        · rename_i seat hfind hblock hany
          split at h
          · rename_i t2 rs2 hrec
            simp only [Prod.mk.injEq, Except.ok.injEq] at h
            obtain ⟨rfl, rfl⟩ := h
            obtain ⟨h1, h2, h3⟩ := ih _ _ _ hrec
            refine ⟨by simp [h1], ?_, ?_⟩
            · simp only [List.map_cons, h2]
              obtain ⟨hrow, hnum⟩ := findSeat_key seats sid.row sid.number seat hfind
              simp [Seat.key, hrow, hnum]
            · intro r hr
              rw [List.mem_cons] at hr
              rcases hr with rfl | hr
              · exact ⟨rfl, rfl⟩
              · exact h3 _ hr
          · simp at h

/-- On failure `reserveGo` still appends `reserved` holds for the prefix of
requested seats processed before the failing one — nothing is rolled back. -/
theorem reserveGo_error (seats : List Seat) (exp : Int) :
    ∀ (ids : List SeatId) (table table' : List Reservation) (e : ReserveError),
      reserveGo seats exp table ids = (table', Except.error e) →
      ∃ pre, table' = table ++ pre ∧
        pre.map (fun r => r.seat.key) = ids.take pre.length ∧
        ∀ r ∈ pre, r.status = RStatus.reserved ∧ r.expiresAt = exp := by
  intro ids
  induction ids with
  | nil =>
    intro table table' e h
    simp only [reserveGo, Prod.mk.injEq] at h
    exact absurd h.2 (by simp)
  | cons sid rest ih =>
    intro table table' e h
    simp only [reserveGo] at h
    split at h
    · simp only [Prod.mk.injEq] at h
      exact ⟨[], by simp [h.1.symm], by simp, by simp⟩
    · split at h
      · simp only [Prod.mk.injEq] at h
        exact ⟨[], by simp [h.1.symm], by simp, by simp⟩
      · split at h
        · simp only [Prod.mk.injEq] at h
          exact ⟨[], by simp [h.1.symm], by simp, by simp⟩
        · rename_i seat hfind hblock hany
          split at h
          · simp at h
          · rename_i t2 e2 hrec
            simp only [Prod.mk.injEq, Except.error.injEq] at h
            obtain ⟨rfl, rfl⟩ := h
            obtain ⟨pre, h1, h2, h3⟩ := ih _ _ _ hrec
            refine ⟨{ rid := table.length, seat := seat, bookingId := none,
                      status := RStatus.reserved, confirmedAt := none,
                      expiresAt := exp } :: pre, by simp [h1], ?_, ?_⟩
            · simp only [List.map_cons, h2, List.length_cons, List.take_succ_cons]
              obtain ⟨hrow, hnum⟩ := findSeat_key seats sid.row sid.number seat hfind
              simp [Seat.key, hrow, hnum]
            · intro r hr
              rw [List.mem_cons] at hr
              rcases hr with rfl | hr
              · exact ⟨rfl, rfl⟩
              · exact h3 _ hr

/-- If some seat of the request already has a reservation row (of any
status), the whole call fails and the rows for that seat are unchanged. -/
theorem reserveGo_blocked (seats : List Seat) (exp : Int) :
    ∀ (ids : List SeatId) (table : List Reservation) (s : Seat) (sid : SeatId),
      sid ∈ ids →
      findSeat seats sid.row sid.number = some s →
      (∃ r ∈ table, r.seat = s) →
      (∃ e, (reserveGo seats exp table ids).2 = Except.error e) ∧
        (reserveGo seats exp table ids).1.filter (fun r => decide (r.seat = s))
          = table.filter (fun r => decide (r.seat = s)) := by
  intro ids
  induction ids with
  | nil =>
    intro table s sid hmem
    exact absurd hmem (by simp)
  | cons head rest ih =>
    intro table s sid hmem hf hex
    simp only [reserveGo]
    split
    · exact ⟨⟨_, rfl⟩, rfl⟩
    · rename_i seat hfind
      split
      · exact ⟨⟨_, rfl⟩, rfl⟩
      · split
        · exact ⟨⟨_, rfl⟩, rfl⟩
        · rename_i hblock hany
          obtain ⟨r0, hr0, hr0s⟩ := hex
          have hseat_ne : seat ≠ s := by
            intro hss
            exact hany (List.any_eq_true.2 ⟨r0, hr0, by simp [hr0s, hss]⟩)
          have hmem' : sid ∈ rest := by
            rcases List.mem_cons.1 hmem with rfl | hmem'
            · rw [hf] at hfind
              cases hfind
              exact absurd rfl hseat_ne
            · exact hmem'
          have hex' : ∃ r ∈ table
              ++ [(⟨table.length, seat, none, RStatus.reserved, none, exp⟩ : Reservation)],
              r.seat = s :=
            ⟨r0, List.mem_append_left _ hr0, hr0s⟩
          have hih := ih _ s sid hmem' hf hex'
          split
          · rename_i t2 rs2 hrec
            rw [hrec] at hih
            exact absurd hih.1 (by simp)
          · rename_i t2 e2 hrec
            rw [hrec] at hih
            refine ⟨⟨e2, rfl⟩, ?_⟩
            rw [hih.2, List.filter_append]
            simp [hseat_ne]

/-- When the first requested seat resolves and has a row with a blocking
status, the call fails immediately with `seatAlreadyReserved` naming that
seat, leaving the table untouched. -/
theorem reserveGo_head_already (seats : List Seat) (exp : Int)
    (table : List Reservation) (sid : SeatId) (rest : List SeatId) (s : Seat)
    (hf : findSeat seats sid.row sid.number = some s)
    (hb : ∃ r ∈ table, r.seat = s ∧ r.hasBlockingStatus = true) :
    reserveGo seats exp table (sid :: rest)
      = (table, Except.error (ReserveError.seatAlreadyReserved sid)) := by
  obtain ⟨r, hr, hrs, hrb⟩ := hb
  have hcond : (table.filter (fun r =>
      decide (r.seat = s) && r.hasBlockingStatus)).isEmpty = false := by
    rw [List.isEmpty_eq_false_iff_exists_mem]
    exact ⟨r, List.mem_filter.2 ⟨hr, by simp [hrs, hrb]⟩⟩
  simp [reserveGo, hf, hcond]

/-- When the first requested seat resolves, has a row, but none of its rows
has a blocking status, the insertion itself fails with the uniqueness
violation, leaving the table untouched. -/
theorem reserveGo_head_unique (seats : List Seat) (exp : Int)
    (table : List Reservation) (sid : SeatId) (rest : List SeatId) (s : Seat)
    (hf : findSeat seats sid.row sid.number = some s)
    (hex : ∃ r ∈ table, r.seat = s)
    (hnb : ∀ r ∈ table, r.seat = s → r.hasBlockingStatus = false) :
    reserveGo seats exp table (sid :: rest)
      = (table, Except.error (ReserveError.uniqueViolation sid)) := by
  have hcond1 : (table.filter (fun r =>
      decide (r.seat = s) && r.hasBlockingStatus)) = [] := by
    rw [List.filter_eq_nil_iff]
    intro r hr
    by_cases hs : r.seat = s
    · simp [hs, hnb r hr hs]
    · simp [hs]
  obtain ⟨r0, hr0, hr0s⟩ := hex
  have hcond2 : table.any (fun r => decide (r.seat = s)) = true :=
    List.any_eq_true.2 ⟨r0, hr0, by simp [hr0s]⟩
  simp [reserveGo, hf, hcond1, hcond2]

/-! ### Preservation of table well-formedness -/

theorem seatsWF_map (seats : List Seat) (t : List Reservation)
    (g : Reservation → Reservation) (hg : ∀ r, (g r).seat = r.seat)
    (h : seatsWF seats t) : seatsWF seats (t.map g) := by
  obtain ⟨h1, h2⟩ := h
  constructor
  · rw [List.map_map]
    have hcomp : ((fun r => (r.seat.row, r.seat.number)) ∘ g)
        = fun r : Reservation => (r.seat.row, r.seat.number) := by
      funext r
      simp [Function.comp, hg r]
    rw [hcomp]
    exact h1
  · intro r hr
    obtain ⟨r0, hr0, rfl⟩ := List.mem_map.1 hr
    rw [hg r0]
    exact h2 r0 hr0

theorem reserveGo_WF (seats : List Seat) (exp : Int) :
    ∀ (ids : List SeatId) (t : List Reservation),
      seatsWF seats t → seatsWF seats (reserveGo seats exp t ids).1 := by
  intro ids
  induction ids with
  | nil => intro t h; exact h
  | cons sid rest ih =>
    intro t h
    simp only [reserveGo]
    split
    · exact h
    · rename_i seat hfind
      split
      · exact h
      · split
        · exact h
        · rename_i hblock hany
          obtain ⟨hrow, hnum⟩ := findSeat_key seats sid.row sid.number seat hfind
          have hnotin : ∀ r0 ∈ t, r0.seat ≠ seat := by
            intro r0 hr0 hcon
            exact hany (List.any_eq_true.2 ⟨r0, hr0, by simp [hcon]⟩)
          have hWF1 : seatsWF seats
              (t ++ [(⟨t.length, seat, none, RStatus.reserved, none, exp⟩ : Reservation)]) := by
            obtain ⟨h1, h2⟩ := h
            constructor
            · rw [List.map_append, List.nodup_append]
              refine ⟨h1, by simp, ?_⟩
              intro x hx
              obtain ⟨r0, hr0, rfl⟩ := List.mem_map.1 hx
              simp only [List.map_cons, List.map_nil, List.mem_cons,
                List.not_mem_nil, or_false]
              intro hkey
              rw [Prod.mk.injEq] at hkey
              have hfind0 := h2 r0 hr0
              rw [hkey.1, hkey.2] at hfind0
              rw [hrow, hnum, hfind] at hfind0
              rw [Option.some.injEq] at hfind0
              exact hnotin r0 hr0 hfind0.symm
            · intro r hr
              rcases List.mem_append.1 hr with hr | hr
              · exact h2 r hr
              · simp only [List.mem_cons, List.not_mem_nil, or_false] at hr
                subst hr
                simp only
                rw [hrow, hnum]
                exact hfind
          have hih := ih _ hWF1
          split
          · rename_i t2 rs2 hrec
            rw [hrec] at hih
            exact hih
          · rename_i t2 e2 hrec
            rw [hrec] at hih
            exact hih

/-- The part of `createBooking`'s success behaviour every invariant proof
needs: the showtime is untouched, one pending booking is appended, and the
table rows only have their status fields updated. -/
theorem createBooking_ok_shape (s : SysState) (nSeats points : Nat)
    (resIds : List Nat) (now : Int) (s' : SysState)
    (h : createBooking s nSeats points resIds now = Except.ok s') :
    s'.showtime = s.showtime ∧
    (∃ bk, s'.bookings = s.bookings ++ [bk] ∧ bk.status = BStatus.pending) ∧
    s'.table = s.table.map (fun r =>
      if decide (r.rid ∈ resIds) && decide (r.status = RStatus.reserved) then
        { r with bookingId := some s.bookings.length,
                 status := RStatus.confirmed, confirmedAt := some now }
      else r) := by
  simp only [createBooking] at h
  split at h
  · exact absurd h (by simp)
  · split at h
    · exact absurd h (by simp)
    · split at h
      · exact absurd h (by simp)
      · split at h
        · exact absurd h (by simp)
        · split at h
          · exact absurd h (by simp)
          · split at h
            · exact absurd h (by simp)
            · split at h
              · exact absurd h (by simp)
              · rw [Except.ok.injEq] at h
                subst h
                exact ⟨rfl, ⟨_, rfl, rfl⟩, rfl⟩

theorem confirmBooking_showtime_shape (b : Booking) (st : Showtime)
    (c : Customer) (now : Int) :
    (confirmBooking b st c now).2.1.seatLayout = st.seatLayout ∧
    (confirmBooking b st c now).2.1.totalSeats = st.totalSeats := by
  unfold confirmBooking
  split <;> exact ⟨rfl, rfl⟩

theorem cancelBooking_showtime_shape (b : Booking) (st : Showtime) (now : Int) :
    (cancelBooking b st now).2.1.seatLayout = st.seatLayout ∧
    (cancelBooking b st now).2.1.totalSeats = st.totalSeats := by
  unfold cancelBooking
  split <;> exact ⟨rfl, rfl⟩

theorem payBooking_table (s : SysState) (bid : Nat) (now : Int) :
    (payBooking s bid now).table = s.table := by
  unfold payBooking
  split
  · rfl
  · split
    · dsimp only
      split <;> rfl
    · rfl

theorem cancelBookingSys_table (s : SysState) (bid : Nat) (now : Int) :
    (cancelBookingSys s bid now).table = s.table := by
  unfold cancelBookingSys
  split <;> rfl

theorem stepOp_showtime_layout (s : SysState) (op : Op) :
    (stepOp s op).showtime.seatLayout = s.showtime.seatLayout := by
  cases op with
  | reserve ids ttl now => rfl
  | create n pts resIds now =>
    simp only [stepOp]
    split
    · rename_i s' hok
      rw [(createBooking_ok_shape _ _ _ _ _ _ hok).1]
    · rfl
  | pay bid now =>
    simp only [stepOp]
    unfold payBooking
    split
    · rfl
    · split
      · dsimp only
        split
        · rfl
        · exact (confirmBooking_showtime_shape _ _ _ _).1
      · rfl
  | cancel bid now =>
    simp only [stepOp]
    unfold cancelBookingSys
    split
    · rfl
    · exact (cancelBooking_showtime_shape _ _ _).1
  | confirmRes rid now => rfl
  | cancelRes rid => rfl

theorem stepOp_tableWF (s : SysState) (op : Op)
    (h : tableWF s.showtime s.table) :
    tableWF (stepOp s op).showtime (stepOp s op).table := by
  have hls : layoutSeats (stepOp s op).showtime = layoutSeats s.showtime := by
    unfold layoutSeats
    rw [stepOp_showtime_layout]
  unfold tableWF at h ⊢
  rw [hls]
  cases op with
  | reserve ids ttl now =>
    show seatsWF (layoutSeats s.showtime)
      (reserveSeats s.showtime s.table ids now ttl).1
    rcases hL : s.showtime.seatLayout with _ | L
    · simpa [reserveSeats, hL] using h
    · have hseats : layoutSeats s.showtime = L.seats := by
        unfold layoutSeats
        rw [hL]
      rw [hseats] at h ⊢
      simp only [reserveSeats, hL]
      exact reserveGo_WF L.seats _ ids s.table h
  | create n pts resIds now =>
    simp only [stepOp]
    split
    · rename_i s' hok
      obtain ⟨-, -, htab⟩ := createBooking_ok_shape _ _ _ _ _ _ hok
      rw [htab]
      refine seatsWF_map _ _ _ ?_ h
      intro r
      split <;> rfl
    · exact h
  | pay bid now =>
    show seatsWF (layoutSeats s.showtime) (payBooking s bid now).table
    rw [payBooking_table]
    exact h
  | cancel bid now =>
    show seatsWF (layoutSeats s.showtime) (cancelBookingSys s bid now).table
    rw [cancelBookingSys_table]
    exact h
  | confirmRes rid now =>
    refine seatsWF_map _ _ _ ?_ h
    intro r
    split <;> rfl
  | cancelRes rid =>
    refine seatsWF_map _ _ _ ?_ h
    intro r
    split <;> rfl

theorem runSys_tableWF :
    ∀ (ops : List Op) (s : SysState), tableWF s.showtime s.table →
      tableWF (runSys s ops).showtime (runSys s ops).table := by
  intro ops
  induction ops with
  | nil => intro s h; exact h
  | cons op rest ih =>
    intro s h
    exact ih (stepOp s op) (stepOp_tableWF s op h)

theorem length_filter_key_le_one (t : List Reservation) (row : String)
    (number : Nat)
    (h : (t.map (fun r => (r.seat.row, r.seat.number))).Nodup) :
    (t.filter (fun r =>
      decide (r.seat.row = row) && decide (r.seat.number = number))).length ≤ 1 := by
  induction t with
  | nil => simp
  | cons r t ih =>
    rw [List.map_cons, List.nodup_cons] at h
    obtain ⟨hnotin, hnd⟩ := h
    by_cases hp : (decide (r.seat.row = row) && decide (r.seat.number = number)) = true
    · have hnil : t.filter (fun r' =>
          decide (r'.seat.row = row) && decide (r'.seat.number = number)) = [] := by
        rw [List.filter_eq_nil_iff]
        intro r' hr' hc
        simp only [Bool.and_eq_true, decide_eq_true_eq] at hp hc
        apply hnotin
        rw [List.mem_map]
        refine ⟨r', hr', ?_⟩
        rw [hc.1, hc.2, hp.1, hp.2]
      simp [List.filter_cons, hp, hnil]
    · rw [Bool.not_eq_true] at hp
      simp only [List.filter_cons, hp, Bool.false_eq_true, if_false]
      exact ih hnd

theorem countLiveFor_le_one (t : List Reservation) (row : String) (number : Nat)
    (now : Int)
    (h : (t.map (fun r => (r.seat.row, r.seat.number))).Nodup) :
    countLiveFor t row number now ≤ 1 := by
  unfold countLiveFor
  exact le_trans
    (length_filter_and_le
      (fun r => decide (r.seat.row = row) && decide (r.seat.number = number))
      (fun r => r.isLive now) t)
    (length_filter_key_le_one t row number h)

/-! ### Helper lemmas about the seat map -/

@[simp] theorem seatMapEntry_row (layout : SeatLayout) (table : List Reservation)
    (row : String) (number : Nat) :
    (seatMapEntry layout table row number).row = row := by
  unfold seatMapEntry
  split <;> rfl

@[simp] theorem seatMapEntry_number (layout : SeatLayout) (table : List Reservation)
    (row : String) (number : Nat) :
    (seatMapEntry layout table row number).number = number := by
  unfold seatMapEntry
  split <;> rfl

theorem seatMapEntry_not_available (layout : SeatLayout) (table : List Reservation)
    (row : String) (number : Nat)
    (h : seatInReservedSet table row number = true) :
    (seatMapEntry layout table row number).isAvailable = false := by
  unfold seatMapEntry
  split
  · simp [h]
  · rfl

theorem seatInReservedSet_of_blocking (table : List Reservation) (s : Seat)
    (hres : ∃ r ∈ table, r.seat = s ∧ r.hasBlockingStatus = true) :
    seatInReservedSet table s.row s.number = true := by
  obtain ⟨r, hr, hrs, hrb⟩ := hres
  exact List.any_eq_true.2 ⟨r, hr, by simp [hrs, hrb]⟩

/-- A seat whose identifier is in the reserved set is never shown available
by the seat map. -/
theorem seatShownAvailable_false (st : Showtime) (table : List Reservation)
    (row : String) (number : Nat)
    (hrs : seatInReservedSet table row number = true) :
    seatShownAvailable st table row number = false := by
  unfold seatShownAvailable
  split
  · rfl
  · rename_i rows hrows
    unfold getAvailableSeatsMap at hrows
    split at hrows
    · cases hrows
    · rename_i L hL
      rw [Option.some.injEq] at hrows
      subst hrows
      rw [List.any_eq_false]
      intro rc hrc
      obtain ⟨rc0, hrc0, rfl⟩ := List.mem_map.1 hrc
      simp only [Bool.not_eq_true]
      rw [List.any_eq_false]
      intro e he
      obtain ⟨i, hi, rfl⟩ := List.mem_map.1 he
      simp only [Bool.not_eq_true]
      by_cases h1 : rc0.1 = row
      · by_cases h2 : i + 1 = number
        · rw [h1, h2, seatMapEntry_not_available L table row number hrs]
          simp
        · simp [h2]
      · simp [h1]

/-! ### Availability accounting -/

theorem sum_map_set (f : Booking → Int) :
    ∀ (bs : List Booking) (i : Nat) (b b' : Booking), bs[i]? = some b →
      ((bs.set i b').map f).sum = (bs.map f).sum - f b + f b' := by
  intro bs
  induction bs with
  | nil =>
    intro i b b' h
    simp at h
  | cons a t ih =>
    intro i b b' h
    cases i with
    | zero =>
      simp only [List.getElem?_cons_zero, Option.some.injEq] at h
      subst h
      simp only [List.set_cons_zero, List.map_cons, List.sum_cons]
      ring
    | succ n =>
      simp only [List.getElem?_cons_succ] at h
      simp only [List.set_cons_succ, List.map_cons, List.sum_cons, ih n b b' h]
      ring

theorem confirmedSeatSum_append (bs : List Booking) (bk : Booking) :
    confirmedSeatSum (bs ++ [bk]) = confirmedSeatSum bs + confSeats bk := by
  unfold confirmedSeatSum
  simp

theorem everConf_split (bs : List Booking) :
    everConfirmedSeatSum bs = confirmedSeatSum bs + cancelledSeatSum bs := by
  unfold everConfirmedSeatSum confirmedSeatSum cancelledSeatSum
  rw [← List.sum_map_add]
  have hfun : everConfSeats = fun b => confSeats b + cancSeats b := by
    funext b
    cases hs : b.status <;> simp [everConfSeats, confSeats, cancSeats, hs]
  rw [hfun]

theorem confirmedSeatSum_nonneg (bs : List Booking) :
    0 ≤ confirmedSeatSum bs := by
  unfold confirmedSeatSum
  apply List.sum_nonneg
  intro x hx
  obtain ⟨b, hb, rfl⟩ := List.mem_map.1 hx
  unfold confSeats
  split
  · positivity
  · exact le_refl 0

theorem stepOp_availInv (s : SysState) (op : Op) (h : availInv s) :
    availInv (stepOp s op) := by
  cases op with
  | reserve ids ttl now => exact h
  | confirmRes rid now => exact h
  | cancelRes rid => exact h
  | create n pts resIds now =>
    simp only [stepOp]
    split
    · rename_i s' hok
      obtain ⟨hshow, ⟨bk, hbs, hpend⟩, -⟩ := createBooking_ok_shape _ _ _ _ _ _ hok
      unfold availInv at h ⊢
      rw [hshow, hbs, confirmedSeatSum_append]
      have hz : confSeats bk = 0 := by simp [confSeats, hpend]
      omega
    · exact h
  | pay bid now =>
    simp only [stepOp]
    unfold payBooking
    split
    · exact h
    · rename_i b hb
      split
      · rename_i hpend
        unfold availInv at h ⊢
        dsimp only
        split
        · exact h
        · simp only [confirmBooking, hpend, if_pos]
          have hset := sum_map_set confSeats s.bookings bid b
            { b with status := BStatus.confirmed, confirmedAt := some now } hb
          unfold confirmedSeatSum at h ⊢
          rw [hset]
          have h1 : confSeats b = 0 := by simp [confSeats, hpend]
          have h2 : confSeats
              { b with status := BStatus.confirmed, confirmedAt := some now }
                = (b.numberOfSeats : Int) := by
            simp [confSeats]
          omega
      · exact h
  | cancel bid now =>
    simp only [stepOp]
    unfold cancelBookingSys
    split
    · exact h
    · rename_i b hb
      unfold availInv at h ⊢
      simp only [cancelBooking]
      split
      · rename_i hcc
        have hbconf : b.status = BStatus.confirmed := by
          unfold canCancel at hcc
          simp only [Bool.and_eq_true, decide_eq_true_eq] at hcc
          exact hcc.1
        have hset := sum_map_set confSeats s.bookings bid b
          { b with status := BStatus.cancelled, cancelledAt := some now } hb
        unfold confirmedSeatSum at h ⊢
        rw [hset]
        have h1 : confSeats b = (b.numberOfSeats : Int) := by
          simp [confSeats, hbconf]
        have h2 : confSeats
            { b with status := BStatus.cancelled, cancelledAt := some now }
              = 0 := by
          simp [confSeats]
        dsimp only
        omega
      · have hset := sum_map_set confSeats s.bookings bid b b hb
        unfold confirmedSeatSum at h ⊢
        rw [hset]
        dsimp only
        omega

theorem runSys_availInv :
    ∀ (ops : List Op) (s : SysState), availInv s → availInv (runSys s ops) := by
  intro ops
  induction ops with
  | nil => intro s h; exact h
  | cons op rest ih =>
    intro s h
    exact ih (stepOp s op) (stepOp_availInv s op h)

/-- No request drives `available_seats` below zero: the only decrement sits
behind the `PositiveIntegerField` check, whose violation rolls the payment
request back. -/
theorem stepOp_avail_nonneg (s : SysState) (op : Op)
    (h : 0 ≤ s.showtime.availableSeats) :
    0 ≤ (stepOp s op).showtime.availableSeats := by
  cases op with
  | reserve ids ttl now => exact h
  | confirmRes rid now => exact h
  | cancelRes rid => exact h
  | create n pts resIds now =>
    simp only [stepOp]
    split
    · rename_i s' hok
      rw [(createBooking_ok_shape _ _ _ _ _ _ hok).1]
      exact h
    · exact h
  | pay bid now =>
    simp only [stepOp]
    unfold payBooking
    split
    · exact h
    · split
      · dsimp only
        split
        · exact h
        · rename_i hguard
          exact le_of_not_lt hguard
      · exact h
  | cancel bid now =>
    simp only [stepOp]
    unfold cancelBookingSys
    split
    · exact h
    · simp only [cancelBooking]
      split
      · dsimp only
        omega
      · dsimp only
        exact h

theorem runSys_avail_nonneg :
    ∀ (ops : List Op) (s : SysState), 0 ≤ s.showtime.availableSeats →
      0 ≤ (runSys s ops).showtime.availableSeats := by
  intro ops
  induction ops with
  | nil => intro s h; exact h
  | cons op rest ih =>
    intro s h
    exact ih (stepOp s op) (stepOp_avail_nonneg s op h)

/-! ## Claims -/

/-- C8: `confirm_booking` is idempotent — running it a second time, from the
state the first call produced, changes nothing: no second status change, no
second `available_seats` decrement, no second loyalty-point award. -/
theorem confirm_booking_idempotent (b : Booking) (st : Showtime) (c : Customer)
    (now now' : Int) :
    confirmBooking (confirmBooking b st c now).1 (confirmBooking b st c now).2.1
        (confirmBooking b st c now).2.2 now'
      = confirmBooking b st c now := by
  by_cases h : b.status = BStatus.pending
  · simp [confirmBooking, h]
  · simp [confirmBooking, h]

/-- C1: (i) after any sequence of operations started from an empty
reservation table, every (seat row, seat number) pair has at most one live
hold at any time; (ii) a reserve request whose first seat already has a live
hold fails with the seat-unavailable error naming that seat and changes
nothing; (iii) any reserve request containing a seat that has a live hold
fails, and the reservation rows for that seat are exactly those before the
call — no hold is created for it. -/
theorem at_most_one_live_hold :
    (∀ (s0 : SysState) (ops : List Op) (row : String) (number : Nat) (now : Int),
      s0.table = [] →
      countLiveFor (runSys s0 ops).table row number now ≤ 1) ∧
    (∀ (st : Showtime) (table : List Reservation) (L : SeatLayout) (s : Seat)
        (sid : SeatId) (rest : List SeatId) (now ttl : Int),
      st.seatLayout = some L →
      findSeat L.seats sid.row sid.number = some s →
      (∃ r ∈ table, r.seat = s ∧ r.isLive now = true) →
      reserveSeats st table (sid :: rest) now ttl
        = (table, Except.error (ReserveError.seatAlreadyReserved sid))) ∧
    (∀ (st : Showtime) (table : List Reservation) (L : SeatLayout) (s : Seat)
        (sid : SeatId) (ids : List SeatId) (now nowl ttl : Int),
      st.seatLayout = some L →
      findSeat L.seats sid.row sid.number = some s →
      sid ∈ ids →
      (∃ r ∈ table, r.seat = s ∧ r.isLive nowl = true) →
      (∃ e, (reserveSeats st table ids now ttl).2 = Except.error e) ∧
      (reserveSeats st table ids now ttl).1.filter (fun r => decide (r.seat = s))
        = table.filter (fun r => decide (r.seat = s))) := by
  refine ⟨?_, ?_, ?_⟩
  · intro s0 ops row number now h0
    have hwf0 : tableWF s0.showtime s0.table := by
      unfold tableWF seatsWF
      rw [h0]
      exact ⟨by simp, by simp⟩
    have hwf := runSys_tableWF ops s0 hwf0
    exact countLiveFor_le_one _ row number now hwf.1
  · intro st table L s sid rest now ttl hL hf hlive
    obtain ⟨r, hr, hrs, hrl⟩ := hlive
    simp only [reserveSeats, hL]
    exact reserveGo_head_already _ _ _ _ _ _ hf
      ⟨r, hr, hrs, isLive_hasBlockingStatus r now hrl⟩
  · intro st table L s sid ids now nowl ttl hL hf hmem hlive
    obtain ⟨r, hr, hrs, -⟩ := hlive
    have hb := reserveGo_blocked L.seats (now + ttl * 60) ids table s sid
      hmem hf ⟨r, hr, hrs⟩
    simpa [reserveSeats, hL] using hb

/-- C1 witness: part (i) on a two-reserve trace from the empty table, parts
(ii) and (iii) on the table holding the live A1 reservation. -/
theorem at_most_one_live_hold_witness :
    countLiveFor (runSys sysEmptyMapped
        [Op.reserve [⟨"A", 1⟩] 15 0, Op.reserve [⟨"A", 1⟩] 15 0]).table "A" 1 0 ≤ 1 ∧
    reserveSeats showtimeMapped [resA1live] [⟨"A", 1⟩] 0 15
        = ([resA1live], Except.error (ReserveError.seatAlreadyReserved ⟨"A", 1⟩)) ∧
    (∃ e, (reserveSeats showtimeMapped [resA1live] [⟨"A", 1⟩] 0 15).2
        = Except.error e) ∧
    (reserveSeats showtimeMapped [resA1live] [⟨"A", 1⟩] 0 15).1.filter
        (fun r => decide (r.seat = seatA1))
      = [resA1live].filter (fun r => decide (r.seat = seatA1)) :=
  ⟨at_most_one_live_hold.1 sysEmptyMapped
      [Op.reserve [⟨"A", 1⟩] 15 0, Op.reserve [⟨"A", 1⟩] 15 0] "A" 1 0 rfl,
   at_most_one_live_hold.2.1 showtimeMapped [resA1live] layoutA seatA1
      ⟨"A", 1⟩ [] 0 15 rfl (by decide) ⟨resA1live, by decide, rfl, by decide⟩,
   at_most_one_live_hold.2.2 showtimeMapped [resA1live] layoutA seatA1
      ⟨"A", 1⟩ [⟨"A", 1⟩] 0 0 15 rfl (by decide) (by decide)
      ⟨resA1live, by decide, rfl, by decide⟩⟩

/-- C2 counterexample: on a showtime *with* a seat layout, confirming a
pending two-seat booking changes `available_seats` (100 becomes 98), contrary
to the claim that seat-mapped confirmation leaves the counter unchanged. -/
theorem confirm_booking_decrements_mapped_counterexample :
    showtimeMapped.seatLayout.isSome = true ∧
      (confirmBooking bookingPending2 showtimeMapped ⟨0⟩ 5).2.1.availableSeats = 98 ∧
      showtimeMapped.availableSeats = 100 := by
  refine ⟨rfl, ?_, rfl⟩
  simp [confirmBooking, bookingPending2, showtimeMapped]

/-- C2 amended: `confirm_booking` decrements `available_seats` by
`number_of_seats` for *every* pending booking — the code has no seat-layout
branch, so the decrement also happens for seat-mapped showtimes (whose seat
layout it leaves untouched, as it touches no holds at all). -/
theorem confirm_booking_always_decrements (b : Booking) (st : Showtime)
    (c : Customer) (now : Int) (h : b.status = BStatus.pending) :
    (confirmBooking b st c now).2.1.availableSeats
        = st.availableSeats - b.numberOfSeats ∧
      (confirmBooking b st c now).2.1.seatLayout = st.seatLayout := by
  simp [confirmBooking, h]

/-- C2 witness: the amended statement evaluated on the mapped fixture. -/
theorem confirm_booking_always_decrements_witness :
    (confirmBooking bookingPending2 showtimeMapped ⟨0⟩ 5).2.1.availableSeats
        = showtimeMapped.availableSeats - bookingPending2.numberOfSeats ∧
      (confirmBooking bookingPending2 showtimeMapped ⟨0⟩ 5).2.1.seatLayout
        = showtimeMapped.seatLayout :=
  confirm_booking_always_decrements bookingPending2 showtimeMapped ⟨0⟩ 5 rfl

/-- C10 counterexample: in scenario C (plain showtime, $10 base price, five
seats, 50 points used against a balance of 50) the booking succeeds, but the
discount is $5 — 50 points at $0.10 each, far below the 50% cap — not the $25
the claim states, and the total is $45, not $25. -/
theorem scenario_c_counterexample :
    createBooking stateC10 5 50 [] 0
        = Except.ok ⟨showtimePlain, [], [bookingC10], ⟨0⟩⟩ ∧
      bookingC10.discountAmount ≠ 25 ∧ bookingC10.totalAmount ≠ 25 := by
  refine ⟨?_, ?_, ?_⟩
  · norm_num [createBooking, bookingSubtotal, selectedReservations, pointsDiscount,
      Showtime.isAvailable, stateC10, showtimePlain, min_def, bookingC10]
  · norm_num [bookingC10]
  · norm_num [bookingC10]

/-- C10 amended: the scenario-C booking succeeds with `discount_amount` $5
(= 50 points × $0.10, below the 50%-of-subtotal cap of $25) and
`total_amount` $45. -/
theorem scenario_c_actual_outcome :
    createBooking stateC10 5 50 [] 0
        = Except.ok ⟨showtimePlain, [], [bookingC10], ⟨0⟩⟩ ∧
      bookingC10.discountAmount = 5 ∧ bookingC10.totalAmount = 45 := by
  refine ⟨?_, ?_, ?_⟩
  · norm_num [createBooking, bookingSubtotal, selectedReservations, pointsDiscount,
      Showtime.isAvailable, stateC10, showtimePlain, min_def, bookingC10]
  · norm_num [bookingC10]
  · norm_num [bookingC10]

/-- C4 counterexample: requesting seats A1 (free) and Z9 (nonexistent) fails
with the unknown-seat error, yet the hold created for A1 before the failure
stays in the table — the hold state is *not* as before the call. -/
theorem reserve_seats_partial_creation_counterexample :
    reserveSeats showtimeMapped [] [⟨"A", 1⟩, ⟨"Z", 9⟩] 0 15
        = ([⟨0, seatA1, none, RStatus.reserved, none, 900⟩],
           Except.error (ReserveError.seatDoesNotExist ⟨"Z", 9⟩)) ∧
      ([⟨0, seatA1, none, RStatus.reserved, none, 900⟩] : List Reservation)
        ≠ ([] : List Reservation) := by
  refine ⟨by decide, by decide⟩

/-- C4 amended: on success `reserve_seats` appends one `reserved` hold per
requested seat with `expires_at = now + ttl`; on failure an error is
returned but the holds already created — one `reserved` hold per seat of the
longest valid prefix of the request — persist in the table, because the
endpoint runs without a transaction and nothing is rolled back. -/
theorem reserve_seats_success_and_failure_shape (st : Showtime)
    (table : List Reservation) (ids : List SeatId) (now ttl : Int)
    (L : SeatLayout) (hL : st.seatLayout = some L) :
    (∀ rs, (reserveSeats st table ids now ttl).2 = Except.ok rs →
      (reserveSeats st table ids now ttl).1 = table ++ rs ∧
      rs.map (fun r => r.seat.key) = ids ∧
      ∀ r ∈ rs, r.status = RStatus.reserved ∧ r.expiresAt = now + ttl * 60) ∧
    (∀ e, (reserveSeats st table ids now ttl).2 = Except.error e →
      ∃ pre, (reserveSeats st table ids now ttl).1 = table ++ pre ∧
        pre.map (fun r => r.seat.key) = ids.take pre.length ∧
        ∀ r ∈ pre, r.status = RStatus.reserved ∧ r.expiresAt = now + ttl * 60) := by
  have hrw : reserveSeats st table ids now ttl
      = reserveGo L.seats (now + ttl * 60) table ids := by
    simp [reserveSeats, hL]
  rw [hrw]
  rcases hrg : reserveGo L.seats (now + ttl * 60) table ids with ⟨t', out⟩
  constructor
  · intro rs h
    simp only at h
    rw [h] at hrg
    obtain ⟨a, b, c⟩ := reserveGo_ok L.seats (now + ttl * 60) ids table t' rs hrg
    exact ⟨a, b, c⟩
  · intro e h
    simp only at h
    rw [h] at hrg
    exact reserveGo_error L.seats (now + ttl * 60) ids table t' e hrg

/-- C4 witness: the success half on a one-seat request, the failure half on
the A1/Z9 request where the A1 hold persists. -/
theorem reserve_seats_success_and_failure_shape_witness :
    ((reserveSeats showtimeMapped [] [⟨"A", 1⟩] 0 15).1
        = [] ++ [⟨0, seatA1, none, RStatus.reserved, none, 900⟩] ∧
      ([(⟨0, seatA1, none, RStatus.reserved, none, 900⟩ : Reservation)].map
          (fun r => r.seat.key) = [⟨"A", 1⟩]) ∧
      (∀ r ∈ [(⟨0, seatA1, none, RStatus.reserved, none, 900⟩ : Reservation)],
        r.status = RStatus.reserved ∧ r.expiresAt = 0 + 15 * 60)) ∧
    (∃ pre, (reserveSeats showtimeMapped [] [⟨"A", 1⟩, ⟨"Z", 9⟩] 0 15).1
        = [] ++ pre ∧
      pre.map (fun r => r.seat.key)
        = ([(⟨"A", 1⟩ : SeatId), ⟨"Z", 9⟩].take pre.length) ∧
      ∀ r ∈ pre, r.status = RStatus.reserved ∧ r.expiresAt = 0 + 15 * 60) :=
  ⟨(reserve_seats_success_and_failure_shape showtimeMapped [] [⟨"A", 1⟩]
        0 15 layoutA rfl).1
      [⟨0, seatA1, none, RStatus.reserved, none, 900⟩] (by decide),
   (reserve_seats_success_and_failure_shape showtimeMapped []
        [⟨"A", 1⟩, ⟨"Z", 9⟩] 0 15 layoutA rfl).2
      (ReserveError.seatDoesNotExist ⟨"Z", 9⟩) (by decide)⟩

/-- An oversell attempt is rolled back, not stored: on a fresh one-seat
showtime two one-seat bookings are created while the seat is still free and
both are paid; the second confirmation would store −1, so its save raises
and the payment transaction rolls back — the counter stays 0 and the second
booking stays `pending`. -/
theorem oversell_rolls_back :
    (runSys sysTight opsOversell).showtime.availableSeats = 0 ∧
      (runSys sysTight opsOversell).bookings.map Booking.status
        = [BStatus.confirmed, BStatus.pending] := by
  refine ⟨by decide, by decide⟩

/-- C5: starting from a fresh showtime (`available_seats = total_seats`, no
bookings), after any sequence of booking creations, confirmations and
cancellations `available_seats` equals `total_seats` minus the seat counts
of ever-confirmed bookings (status `confirmed` or `cancelled`) plus the
seat counts of cancelled bookings, and satisfies
`0 ≤ available_seats ≤ total_seats`: a confirmation that would store a
negative counter violates the `PositiveIntegerField` check and the payment
transaction rolls back. -/
theorem available_seats_accounting (s0 : SysState) (ops : List Op)
    (h0 : s0.bookings = [])
    (h1 : s0.showtime.availableSeats = (s0.showtime.totalSeats : Int)) :
    (runSys s0 ops).showtime.availableSeats
        = ((runSys s0 ops).showtime.totalSeats : Int)
          - everConfirmedSeatSum (runSys s0 ops).bookings
          + cancelledSeatSum (runSys s0 ops).bookings ∧
      0 ≤ (runSys s0 ops).showtime.availableSeats ∧
      (runSys s0 ops).showtime.availableSeats
        ≤ ((runSys s0 ops).showtime.totalSeats : Int) := by
  have hinv : availInv (runSys s0 ops) := by
    apply runSys_availInv
    unfold availInv
    rw [h0]
    unfold confirmedSeatSum
    simpa using h1
  have hnn0 : 0 ≤ (runSys s0 ops).showtime.availableSeats := by
    apply runSys_avail_nonneg
    rw [h1]
    positivity
  unfold availInv at hinv
  have hsplit := everConf_split (runSys s0 ops).bookings
  have hnn := confirmedSeatSum_nonneg (runSys s0 ops).bookings
  refine ⟨by omega, hnn0, by omega⟩

/-- C5 witness: the accounting identity and both bounds evaluated on the
oversell trace (where the rollback keeps the counter at 0 = 1 − 1 + 0). -/
theorem available_seats_accounting_witness :
    (runSys sysTight opsOversell).showtime.availableSeats
        = ((runSys sysTight opsOversell).showtime.totalSeats : Int)
          - everConfirmedSeatSum (runSys sysTight opsOversell).bookings
          + cancelledSeatSum (runSys sysTight opsOversell).bookings ∧
      0 ≤ (runSys sysTight opsOversell).showtime.availableSeats ∧
      (runSys sysTight opsOversell).showtime.availableSeats
        ≤ ((runSys sysTight opsOversell).showtime.totalSeats : Int) :=
  available_seats_accounting sysTight opsOversell rfl (by decide)

/-- C6 counterexample: a hold on A1 with status `reserved` whose
`expires_at` (10) is far before the current time (100) — i.e. an expired
hold — still makes a new reserve request for A1 fail with the
already-reserved error, and the seat map still reports A1 unavailable:
neither operation re-checks `expires_at`. -/
theorem expired_hold_still_blocks_counterexample :
    resA1expired.isExpired 100 = true ∧
      reserveSeats showtimeMapped [resA1expired] [⟨"A", 1⟩] 100 15
        = ([resA1expired], Except.error (ReserveError.seatAlreadyReserved ⟨"A", 1⟩)) ∧
      seatShownAvailable showtimeMapped [resA1expired] "A" 1 = false := by
  refine ⟨by decide, by decide, by decide⟩

/-- C6 amended: reads of hold liveness trust the stored `status` field
alone: any hold whose stored status is `reserved` — regardless of how its
`expires_at` compares to the current time — makes a reserve request for the
same seat fail with `seatAlreadyReserved`, and makes the seat map report
that seat unavailable.  Only `create_booking`'s validation re-checks
`expires_at`. -/
theorem stored_status_alone_blocks (st : Showtime) (table : List Reservation)
    (L : SeatLayout) (s : Seat) (sid : SeatId) (rest : List SeatId)
    (now ttl : Int)
    (hL : st.seatLayout = some L)
    (hf : findSeat L.seats sid.row sid.number = some s)
    (hres : ∃ r ∈ table, r.seat = s ∧ r.status = RStatus.reserved) :
    reserveSeats st table (sid :: rest) now ttl
        = (table, Except.error (ReserveError.seatAlreadyReserved sid)) ∧
      seatShownAvailable st table s.row s.number = false := by
  have hb : ∃ r ∈ table, r.seat = s ∧ r.hasBlockingStatus = true := by
    obtain ⟨r, hr, hrs, hst⟩ := hres
    exact ⟨r, hr, hrs, by simp [Reservation.hasBlockingStatus, hst]⟩
  constructor
  · simp only [reserveSeats, hL]
    exact reserveGo_head_already _ _ _ _ _ _ hf hb
  · exact seatShownAvailable_false st table s.row s.number
      (seatInReservedSet_of_blocking table s hb)

/-- C6 witness: the amended statement on the expired-hold fixture. -/
theorem stored_status_alone_blocks_witness :
    reserveSeats showtimeMapped [resA1expired] [⟨"A", 1⟩] 100 15
        = ([resA1expired], Except.error (ReserveError.seatAlreadyReserved ⟨"A", 1⟩)) ∧
      seatShownAvailable showtimeMapped [resA1expired] seatA1.row seatA1.number = false :=
  stored_status_alone_blocks showtimeMapped [resA1expired] layoutA seatA1
    ⟨"A", 1⟩ [] 100 15 rfl (by decide)
    ⟨resA1expired, by decide, rfl, rfl⟩

/-- C7: when a (showtime, seat) pair has only dead reservation rows
(`cancelled` or `expired`), a reserve request with that seat first passes
the liveness filter but fails at insertion with the uniqueness violation
(leaving the table unchanged), and more generally every reserve request
containing that seat fails and never creates a new row for it — the seat
can never be successfully re-reserved. -/
theorem dead_row_blocks_reservation (st : Showtime) (table : List Reservation)
    (L : SeatLayout) (s : Seat) (sid : SeatId) (rest ids : List SeatId)
    (now ttl : Int)
    (hL : st.seatLayout = some L)
    (hf : findSeat L.seats sid.row sid.number = some s)
    (hdead : ∃ r ∈ table, r.seat = s ∧
      (r.status = RStatus.cancelled ∨ r.status = RStatus.expired))
    (hnb : ∀ r ∈ table, r.seat = s → r.hasBlockingStatus = false)
    (hmem : sid ∈ ids) :
    reserveSeats st table (sid :: rest) now ttl
        = (table, Except.error (ReserveError.uniqueViolation sid)) ∧
      (∃ e, (reserveSeats st table ids now ttl).2 = Except.error e) ∧
      (reserveSeats st table ids now ttl).1.filter (fun r => decide (r.seat = s))
        = table.filter (fun r => decide (r.seat = s)) := by
  obtain ⟨r0, hr0, hr0s, -⟩ := hdead
  refine ⟨?_, ?_⟩
  · simp only [reserveSeats, hL]
    exact reserveGo_head_unique _ _ _ _ _ _ hf ⟨r0, hr0, hr0s⟩ hnb
  · have hb := reserveGo_blocked L.seats (now + ttl * 60) ids table s sid
      hmem hf ⟨r0, hr0, hr0s⟩
    simpa [reserveSeats, hL] using hb

/-- C7 witness: the statement on the cancelled-row fixture. -/
theorem dead_row_blocks_reservation_witness :
    reserveSeats showtimeMapped [resA1cancelled] [⟨"A", 1⟩] 100 15
        = ([resA1cancelled], Except.error (ReserveError.uniqueViolation ⟨"A", 1⟩)) ∧
      (∃ e, (reserveSeats showtimeMapped [resA1cancelled] [⟨"A", 1⟩] 100 15).2
        = Except.error e) ∧
      (reserveSeats showtimeMapped [resA1cancelled] [⟨"A", 1⟩] 100 15).1.filter
          (fun r => decide (r.seat = seatA1))
        = [resA1cancelled].filter (fun r => decide (r.seat = seatA1)) :=
  dead_row_blocks_reservation showtimeMapped [resA1cancelled] layoutA seatA1
    ⟨"A", 1⟩ [] [⟨"A", 1⟩] 100 15 rfl (by decide)
    ⟨resA1cancelled, by decide, rfl, Or.inl rfl⟩
    (by decide) (by decide)

/-- C9: on every successful booking creation, the requested points were
within the customer's balance, the stored discount is
`min(points × 0.10, subtotal × 0.50)`, the stored total is
`subtotal − discount`, and a requested discount exceeding half the subtotal
is clamped to exactly half the subtotal rather than rejected. -/
theorem create_booking_discount_formula (s : SysState) (nSeats points : Nat)
    (resIds : List Nat) (now : Int) (s' : SysState) (bk : Booking)
    (h : createBooking s nSeats points resIds now = Except.ok s')
    (hbk : s'.bookings = s.bookings ++ [bk]) :
    (points : Int) ≤ s.customer.loyaltyPoints ∧
    bk.discountAmount = min ((points : ℚ) * (1 / 10))
        (bookingSubtotal s.showtime s.table resIds nSeats * (1 / 2)) ∧
    bk.totalAmount = bookingSubtotal s.showtime s.table resIds nSeats - bk.discountAmount ∧
    (bookingSubtotal s.showtime s.table resIds nSeats * (1 / 2)
        < (points : ℚ) * (1 / 10) →
      bk.discountAmount = bookingSubtotal s.showtime s.table resIds nSeats * (1 / 2)) := by
  simp only [createBooking] at h
  split at h
  · exact absurd h (by simp)
  · split at h
    · exact absurd h (by simp)
    · split at h
      · exact absurd h (by simp)
      · split at h
        · exact absurd h (by simp)
        · split at h
          · exact absurd h (by simp)
          · split at h
            · exact absurd h (by simp)
            · split at h
              · exact absurd h (by simp)
              · rename_i hpts
                rw [Except.ok.injEq] at h
                subst h
                simp only [SysState.mk.injEq] at hbk
                have hbk' := List.append_cancel_left hbk
                simp only [List.cons.injEq] at hbk'
                obtain ⟨hbk2, -⟩ := hbk'
                subst hbk2
                refine ⟨by omega, ?_, ?_, ?_⟩
                · simp [pointsDiscount]
                · simp [pointsDiscount]
                · intro h'
                  simp only [pointsDiscount]
                  exact min_eq_right (le_of_lt h')

/-- C9 witness: the formula checked on the scenario-C booking. -/
theorem create_booking_discount_formula_witness :
    ((50 : Nat) : Int) ≤ stateC10.customer.loyaltyPoints ∧
    bookingC10.discountAmount = min (((50 : Nat) : ℚ) * (1 / 10))
        (bookingSubtotal stateC10.showtime stateC10.table [] 5 * (1 / 2)) ∧
    bookingC10.totalAmount
        = bookingSubtotal stateC10.showtime stateC10.table [] 5 - bookingC10.discountAmount ∧
    (bookingSubtotal stateC10.showtime stateC10.table [] 5 * (1 / 2)
        < ((50 : Nat) : ℚ) * (1 / 10) →
      bookingC10.discountAmount
        = bookingSubtotal stateC10.showtime stateC10.table [] 5 * (1 / 2)) :=
  create_booking_discount_formula stateC10 5 50 [] 0
    ⟨showtimePlain, [], [bookingC10], ⟨0⟩⟩ bookingC10
    (by norm_num [createBooking, bookingSubtotal, selectedReservations, pointsDiscount,
      Showtime.isAvailable, stateC10, showtimePlain, min_def, bookingC10])
    (by simp [stateC10])

/-- C3 counterexample: creating a booking that references the live hold on
seat A1 immediately leaves that hold `confirmed` (attached to the new
booking), not `reserved` as the claim states, while the booking itself is
still `pending`. -/
theorem create_booking_holds_counterexample :
    createBooking sysC3 1 0 [0] 0
        = Except.ok ⟨showtimeMapped, [resA1confirmed0], [bookingC3], ⟨0⟩⟩ ∧
      resA1live.status = RStatus.reserved ∧
      resA1confirmed0.status = RStatus.confirmed ∧
      bookingC3.status = BStatus.pending ∧
      RStatus.confirmed ≠ RStatus.reserved := by
  refine ⟨?_, rfl, rfl, rfl, by simp⟩
  norm_num [createBooking, bookingSubtotal, selectedReservations, pointsDiscount,
    Showtime.isAvailable, sysC3, showtimeMapped, resA1live, min_def, bookingC3,
    resA1confirmed0, calculateSeatPrice, seatA1, Reservation.isExpired, Seat.key]

/-- C3 amended: a successful `create_booking` that references held seats
*immediately* transitions every referenced `reserved` hold to `confirmed`
(attaching the new booking and the confirmation time), creates the booking
in status `pending`, leaves no referenced hold in status `reserved`, and the
later payment-triggered booking confirmation does not touch the reservation
table at all. -/
theorem create_booking_confirms_holds (s : SysState) (nSeats points : Nat)
    (resIds : List Nat) (now : Int) (s' : SysState) (bk : Booking)
    (_hne : resIds ≠ [])
    (h : createBooking s nSeats points resIds now = Except.ok s')
    (hbk : s'.bookings = s.bookings ++ [bk]) :
    bk.status = BStatus.pending ∧
    (∀ r ∈ s.table, r.rid ∈ resIds → r.status = RStatus.reserved →
      ({ r with bookingId := some s.bookings.length,
                status := RStatus.confirmed,
                confirmedAt := some now } : Reservation) ∈ s'.table) ∧
    (∀ r ∈ s'.table, r.rid ∈ resIds → r.status ≠ RStatus.reserved) ∧
    (∀ bid now2, (payBooking s' bid now2).table = s'.table) := by
  simp only [createBooking] at h
  split at h
  · exact absurd h (by simp)
  · split at h
    · exact absurd h (by simp)
    · split at h
      · exact absurd h (by simp)
      · split at h
        · exact absurd h (by simp)
        · split at h
          · exact absurd h (by simp)
          · split at h
            · exact absurd h (by simp)
            · split at h
              · exact absurd h (by simp)
              · rw [Except.ok.injEq] at h
                subst h
                simp only [SysState.mk.injEq] at hbk
                have hbk' := List.append_cancel_left hbk
                simp only [List.cons.injEq] at hbk'
                obtain ⟨hbk2, -⟩ := hbk'
                subst hbk2
                refine ⟨rfl, ?_, ?_, ?_⟩
                · intro r hr hrid hres
                  refine List.mem_map.2 ⟨r, hr, ?_⟩
                  simp [hrid, hres]
                · intro r hr hrid
                  obtain ⟨r0, hr0, rfl⟩ := List.mem_map.1 hr
                  by_cases hc : (decide (r0.rid ∈ resIds)
                      && decide (r0.status = RStatus.reserved)) = true
                  · rw [if_pos hc]
                    simp
                  · rw [if_neg hc]
                    rw [if_neg hc] at hrid
                    intro hres
                    simp only [Bool.and_eq_true, decide_eq_true_eq] at hc
                    exact hc ⟨hrid, hres⟩
                · intro bid now2
                  unfold payBooking
                  split
                  · rfl
                  · split
                    · dsimp only
                      split <;> rfl
                    · rfl

/-- C3 witness: the amended statement on the one-hold fixture. -/
theorem create_booking_confirms_holds_witness :
    bookingC3.status = BStatus.pending ∧
    (∀ r ∈ sysC3.table, r.rid ∈ [0] → r.status = RStatus.reserved →
      ({ r with bookingId := some sysC3.bookings.length,
                status := RStatus.confirmed,
                confirmedAt := some 0 } : Reservation)
          ∈ (⟨showtimeMapped, [resA1confirmed0], [bookingC3], ⟨0⟩⟩ : SysState).table) ∧
    (∀ r ∈ (⟨showtimeMapped, [resA1confirmed0], [bookingC3], ⟨0⟩⟩ : SysState).table,
      r.rid ∈ [0] → r.status ≠ RStatus.reserved) ∧
    (∀ bid now2,
      (payBooking ⟨showtimeMapped, [resA1confirmed0], [bookingC3], ⟨0⟩⟩ bid now2).table
        = (⟨showtimeMapped, [resA1confirmed0], [bookingC3], ⟨0⟩⟩ : SysState).table) :=
  create_booking_confirms_holds sysC3 1 0 [0] 0
    ⟨showtimeMapped, [resA1confirmed0], [bookingC3], ⟨0⟩⟩ bookingC3
    (by simp)
    (by norm_num [createBooking, bookingSubtotal, selectedReservations, pointsDiscount,
      Showtime.isAvailable, sysC3, showtimeMapped, resA1live, min_def, bookingC3,
      resA1confirmed0, calculateSeatPrice, seatA1, Reservation.isExpired, Seat.key])
    (by simp [sysC3])

end Lumo
